import Mathlib

/- Shallow embedding of the AnotherWorld life simulator.
   Python floats are modelled as exact rationals; `math.log10` (used only by
   `BaseWorldState.calculate_person_score`) forces that one definition onto ℝ.
   Stochastic draws (`rng.random()`, `apply_noise`) are threaded as explicit
   parameters wherever a claim depends on them. -/

namespace AnotherWorld

/-- `utils.helpers.clamp` with default bounds 0, 1. -/
def clamp01 (x : ℚ) : ℚ := max 0 (min 1 x)

/-- Abbreviation for membership in the unit interval. -/
def in01 (x : ℚ) : Prop := 0 ≤ x ∧ x ≤ 1

instance (x : ℚ) : Decidable (in01 x) := by unfold in01; infer_instance

/-- `models.person.BirthProfile` (immutable birth parameters). -/
structure BirthProfile where
  birth_year : ℤ
  region : String
  family_class : ℚ
  parents_education : ℚ
  family_stability : ℚ
  genetic_health : ℚ
  cognitive_potential : ℚ
deriving DecidableEq

/-- `models.person.Personality` (slow-changing traits). -/
structure Personality where
  openness : ℚ
  conscientiousness : ℚ
  risk_preference : ℚ
  social_drive : ℚ
  resilience : ℚ
deriving DecidableEq

/-- `models.person.PersonState` (mutable individual state).  The bookkeeping
fields `occupation` and `life_events` carry no numeric state and are omitted;
every numeric field of the dataclass is present. -/
structure PersonState where
  age : ℕ
  health : ℚ
  mental_health : ℚ
  energy : ℚ
  stress : ℚ
  education_level : ℚ
  skill_depth : ℚ
  skill_width : ℚ
  learning_rate : ℚ
  income : ℚ
  wealth : ℚ
  employment_stability : ℚ
  social_capital : ℚ
  loneliness : ℚ
deriving DecidableEq

/-- Dataclass defaults of `PersonState`. -/
def PersonState.default : PersonState :=
  { age := 0
    health := 1
    mental_health := 7/10
    energy := 4/5
    stress := 1/5
    education_level := 0
    skill_depth := 0
    skill_width := 0
    learning_rate := 1/2
    income := 0
    wealth := 0
    employment_stability := 0
    social_capital := 3/10
    loneliness := 3/10 }

/-- `PersonState.clamp_values`: clamp the eleven bounded fields to [0,1];
`age`, `income` and `wealth` are untouched. -/
def PersonState.clamp_values (p : PersonState) : PersonState :=
  { p with
    health := clamp01 p.health
    mental_health := clamp01 p.mental_health
    energy := clamp01 p.energy
    stress := clamp01 p.stress
    education_level := clamp01 p.education_level
    skill_depth := clamp01 p.skill_depth
    skill_width := clamp01 p.skill_width
    learning_rate := clamp01 p.learning_rate
    employment_stability := clamp01 p.employment_stability
    social_capital := clamp01 p.social_capital
    loneliness := clamp01 p.loneliness }

/-- The post-clamp invariant: all eleven bounded fields lie in [0,1]. -/
def PersonState.bounded_in_range (p : PersonState) : Prop :=
  in01 p.health ∧ in01 p.mental_health ∧ in01 p.energy ∧ in01 p.stress ∧
  in01 p.education_level ∧ in01 p.skill_depth ∧ in01 p.skill_width ∧
  in01 p.learning_rate ∧ in01 p.employment_stability ∧
  in01 p.social_capital ∧ in01 p.loneliness

instance (p : PersonState) : Decidable p.bounded_in_range := by
  unfold PersonState.bounded_in_range; infer_instance

/-- `models.world.WorldState`, the flat adapter consumed by the decision
engine and event detector (built in `LifeSimulatorV2.simulate`). -/
structure WorldState where
  year : ℤ
  economic_cycle : ℚ
  tech_level : ℚ
  social_mobility : ℚ
  inequality : ℚ
  conflict_risk : ℚ
deriving DecidableEq

/-- `engine.decision_engine.Action`. -/
inductive Action where
  | study
  | work
  | rest
  | move
  | risk
  | relation
deriving DecidableEq

/-- `DecisionEngine.get_available_actions`: the admissible-action list, built
by the same sequence of appends as the source (the `world is None` guard of
the RISK rule is always false in the v2 simulator, which passes an adapter). -/
def get_available_actions (person : PersonState) (world : WorldState)
    (personality : Personality) : List Action :=
  (if (person.age < 30 ∨ person.education_level < 4/5) ∧ 3/10 < person.energy
    then [Action.study] else []) ++
  (if 18 ≤ person.age ∧ 1/5 < person.health then [Action.work] else []) ++
  (if 1/2 < person.stress ∨ person.health < 1/2 then [Action.rest]
    else if person.energy < 3/10 then [Action.rest] else []) ++
  (if (person.employment_stability < 1/2 ∨ 3/5 < personality.risk_preference)
      ∧ person.age < 50
    then [Action.move] else []) ++
  (if 1/2 < personality.risk_preference
      ∧ (0 < world.economic_cycle ∨ 3/10 < person.wealth) ∧ person.age < 60
    then [Action.risk] else []) ++
  (if 2/5 < person.loneliness ∨ 1/2 < personality.social_drive
    then [Action.relation] else [])

/-- The two priority phases of `DecisionEngine._auto_select` (critical needs,
then the single personality-dominant action), before the fill loop. -/
def auto_select_priority (available : List Action) (person : PersonState)
    (personality : Personality) : List Action :=
  let selected : List Action :=
    if 7/10 < person.stress ∧ Action.rest ∈ available then [Action.rest]
    else if person.health < 3/10 ∧ Action.rest ∈ available then [Action.rest]
    else []
  if 7/10 < personality.conscientiousness then
    (if Action.study ∈ available ∧ person.education_level < 4/5 then
      selected ++ [Action.study]
    else if Action.work ∈ available then selected ++ [Action.work]
    else selected)
  else if 7/10 < personality.social_drive then
    (if Action.relation ∈ available then selected ++ [Action.relation]
     else selected)
  else if 7/10 < personality.risk_preference then
    (if Action.risk ∈ available then selected ++ [Action.risk] else selected)
  else selected

/-- One pass of the fill loop body of `DecisionEngine._auto_select`:
`for action in available: if action not in selected: selected.append(action); break`.
If every available action is already selected, the pass changes nothing. -/
def fill_step (available selected : List Action) : List Action :=
  match available.find? (fun a => decide (a ∉ selected)) with
  | some a => selected ++ [a]
  | none => selected

/-- The fill loop of `_auto_select`
(`while len(selected) < max_actions and available: <fill_step>`), indexed by
fuel: `some` means the loop exited within the given number of iterations,
`none` means it was still running. -/
def fill_loop_fuel (max_actions : ℕ) (available : List Action) :
    ℕ → List Action → Option (List Action)
  | 0, _ => none
  | fuel + 1, selected =>
    if selected.length < max_actions ∧ available ≠ [] then
      fill_loop_fuel max_actions available fuel (fill_step available selected)
    else
      some selected

/-- `models.world_base.BaseWorldState`: the fields consulted by the derived
multiplier functions and the score function.  The stochastic `update` (noise
draws) is not needed by any claim and is not modelled. -/
structure BaseWorldState where
  year : ℤ
  economic_cycle : ℚ
  tech_level : ℚ
  inequality : ℚ
  social_mobility : ℚ
deriving DecidableEq

/-- `BaseWorldState.PARETO_ELITE_THRESHOLD` (class constant 0.8). -/
def PARETO_ELITE_THRESHOLD : ℚ := 4/5

/-- `BaseWorldState.is_in_elite_percentile`: top 20% iff score at least 0.8. -/
def BaseWorldState.is_in_elite_percentile (_w : BaseWorldState)
    (person_score : ℚ) : Bool :=
  decide (PARETO_ELITE_THRESHOLD ≤ person_score)

/-- `BaseWorldState.get_wealth_multiplier`. -/
def BaseWorldState.get_wealth_multiplier (w : BaseWorldState)
    (person_score : ℚ) : ℚ :=
  if w.is_in_elite_percentile person_score then
    4 * (1 + w.inequality * (1/2))
  else
    (1/4) * (1 - w.inequality * (3/10))

/-- `BaseWorldState.get_opportunity_multiplier`. -/
def BaseWorldState.get_opportunity_multiplier (w : BaseWorldState)
    (person_score : ℚ) : ℚ :=
  if w.is_in_elite_percentile person_score then 4 else 1/4

/-- `BaseWorldState.get_tech_benefit_multiplier`. -/
def BaseWorldState.get_tech_benefit_multiplier (w : BaseWorldState)
    (person_score : ℚ) : ℚ :=
  if w.is_in_elite_percentile person_score then
    1 + w.tech_level * (1/2)
  else
    3/10 + w.tech_level * (1/5)

/-- The log-scaled wealth normalisation inside
`BaseWorldState.calculate_person_score`:
`min(1.0, math.log10(max(1, wealth / 1000) + 1) / 3.0)`. -/
noncomputable def normalized_wealth (wealth : ℝ) : ℝ :=
  min 1 (Real.logb 10 (max 1 (wealth / 1000) + 1) / 3)

/-- `BaseWorldState.calculate_person_score` (real-valued because of the
`log10`): weighted blend of birth class and merit, with the mobility
override and the final clamp to [0,1]. -/
noncomputable def BaseWorldState.calculate_person_score (w : BaseWorldState)
    (education skill_depth social_capital wealth birth_family_class : ℝ) :
    ℝ :=
  let nw := normalized_wealth wealth
  let birth_weight : ℝ := 1/5 + (w.inequality : ℝ) * (3/10)
  let merit_weight : ℝ := 1 - birth_weight
  let score := birth_family_class * birth_weight +
    (education * (3/10) + skill_depth * (2/5) + social_capital * (1/5) +
      nw * (1/10)) * merit_weight
  let score2 :=
    if (1/2 : ℝ) < (w.social_mobility : ℝ) then
      max score ((education * (3/10) + skill_depth * (2/5) +
        social_capital * (1/5)) * (w.social_mobility : ℝ))
    else score
  min 1 (max 0 score2)

/-- `models.city.CityConfig` (the fields consulted by the modifier
functions; the categorical fields stay strings, as in the source). -/
structure CityConfig where
  city_name : String
  income_ceiling : String
  living_cost : String
  policy_bonus : ℚ
  market_freedom : ℚ
  elite_competition : ℚ
  mobility_threshold : String
  risk_reward_ratio : ℚ
  startup_success_rate : String
  age_penalty_age : ℕ
  stability_bonus : ℚ
  elite_path_probability : ℚ
deriving DecidableEq

/-- `City.get_city_modifier_for_action` (dict lookup with default 1.0). -/
def CityConfig.get_city_modifier_for_action (c : CityConfig)
    (action_type : String) : ℚ :=
  if action_type = "study" then
    1 + (if 3/10 < c.policy_bonus then c.policy_bonus * (1/2) else 0)
  else if action_type = "work" then 1 + c.policy_bonus * (3/10)
  else if action_type = "risk" then c.risk_reward_ratio
  else if action_type = "relation" then 1 + c.stability_bonus
  else 1

/-- `City.get_income_multiplier` (dict lookup with default 1.0). -/
def CityConfig.get_income_multiplier (c : CityConfig) : ℚ :=
  if c.income_ceiling = "low" then 7/10
  else if c.income_ceiling = "medium" then 1
  else if c.income_ceiling = "high" then 3/2
  else 1

/-- `City.get_living_cost_multiplier` (dict lookup with default 1.0). -/
def CityConfig.get_living_cost_multiplier (c : CityConfig) : ℚ :=
  if c.living_cost = "low" then 1/2
  else if c.living_cost = "medium" then 1
  else if c.living_cost = "high" then 2
  else if c.living_cost = "very_high" then 3
  else 1

/-- `City.get_mobility_modifier` (dict lookup with default 1.0). -/
def CityConfig.get_mobility_modifier (c : CityConfig) : ℚ :=
  if c.mobility_threshold = "low" then 6/5
  else if c.mobility_threshold = "medium" then 1
  else if c.mobility_threshold = "high" then 4/5
  else 1

/-- The Shenzhen entry of `create_china_cities`. -/
def shenzhen : CityConfig :=
  { city_name := "Shenzhen"
    income_ceiling := "high"
    living_cost := "high"
    policy_bonus := 1/10
    market_freedom := 3/10
    elite_competition := 2/5
    mobility_threshold := "low"
    risk_reward_ratio := 9/5
    startup_success_rate := "high_variance"
    age_penalty_age := 35
    stability_bonus := 0
    elite_path_probability := 2/5 }

/-- The Beijing entry of `create_china_cities`. -/
def beijing : CityConfig :=
  { city_name := "Beijing"
    income_ceiling := "high"
    living_cost := "very_high"
    policy_bonus := 2/5
    market_freedom := -1/5
    elite_competition := 3/5
    mobility_threshold := "high"
    risk_reward_ratio := 3/5
    startup_success_rate := "low"
    age_penalty_age := 999
    stability_bonus := 0
    elite_path_probability := 1/2 }

/-- `models.country_china.ChinaEra`: the six ordered eras. -/
inductive ChinaEra where
  | ESTABLISHMENT
  | TURBULENCE
  | REFORM_EARLY
  | URBAN_BOOM
  | STRUCTURE_SOLIDIFY
  | NEW_UNCERTAINTY
deriving DecidableEq

/-- `models.country_china.ChinaEraConfig` (the numeric era parameters;
the back-pointer `era` field is redundant and dropped). -/
structure ChinaEraConfig where
  social_mobility : ℚ
  inequality : ℚ
  risk_reward_ratio : ℚ
  education_return : ℚ
  system_shock : ℚ
  health_risk : ℚ
  asset_return : ℚ
  asset_entry_cost : ℚ
  stress_factor : ℚ
  system_volatility : ℚ
  risk_penalty : ℚ
  mental_health_weight : ℚ
  market_freedom : ℚ
  elite_competition : ℚ
deriving DecidableEq

/-- Defaults of the `ChinaEraConfig` dataclass. -/
def ChinaEraConfig.base : ChinaEraConfig :=
  { social_mobility := 0, inequality := 0, risk_reward_ratio := 0
    education_return := 0, system_shock := 0, health_risk := 0
    asset_return := 0, asset_entry_cost := 0, stress_factor := 0
    system_volatility := 0, risk_penalty := 0, mental_health_weight := 1
    market_freedom := 1/2, elite_competition := 1/2 }

/-- `ChinaCountryModel._get_era_for_year`. -/
def get_era_for_year (year : ℤ) : ChinaEra :=
  if year < 1958 then ChinaEra.ESTABLISHMENT
  else if year < 1978 then ChinaEra.TURBULENCE
  else if year < 1992 then ChinaEra.REFORM_EARLY
  else if year < 2008 then ChinaEra.URBAN_BOOM
  else if year < 2020 then ChinaEra.STRUCTURE_SOLIDIFY
  else ChinaEra.NEW_UNCERTAINTY

/-- `ChinaCountryModel._get_era_config`: the per-era constant table. -/
def get_era_config : ChinaEra → ChinaEraConfig
  | ChinaEra.ESTABLISHMENT =>
    { ChinaEraConfig.base with
      social_mobility := 3/20, inequality := 1/10, risk_reward_ratio := 1/5
      education_return := 3/10, market_freedom := 1/5
      elite_competition := 3/10 }
  | ChinaEra.TURBULENCE =>
    { ChinaEraConfig.base with
      social_mobility := 1/20, inequality := 3/20, risk_reward_ratio := 1/10
      education_return := 1/10, system_shock := 9/10, health_risk := 4/5
      market_freedom := 1/10, elite_competition := 1/5 }
  | ChinaEra.REFORM_EARLY =>
    { ChinaEraConfig.base with
      social_mobility := 9/20, inequality := 2/5, risk_reward_ratio := 3/2
      education_return := 4/5, market_freedom := 3/5
      elite_competition := 2/5 }
  | ChinaEra.URBAN_BOOM =>
    { ChinaEraConfig.base with
      social_mobility := 7/10, inequality := 3/5, risk_reward_ratio := 6/5
      education_return := 6/5, asset_return := 9/5, market_freedom := 4/5
      elite_competition := 3/5 }
  | ChinaEra.STRUCTURE_SOLIDIFY =>
    { ChinaEraConfig.base with
      social_mobility := 7/20, inequality := 7/10, risk_reward_ratio := 4/5
      education_return := 9/10, asset_entry_cost := 9/10
      stress_factor := 7/10, market_freedom := 7/10
      elite_competition := 4/5 }
  | ChinaEra.NEW_UNCERTAINTY =>
    { ChinaEraConfig.base with
      social_mobility := 1/4, inequality := 3/4, risk_reward_ratio := 3/5
      education_return := 4/5, system_volatility := 4/5, risk_penalty := 3/5
      mental_health_weight := 6/5, market_freedom := 3/5
      elite_competition := 9/10 }

/-- The mutable window / era state of `ChinaCountryModel` (the base-world
pointer and family-policy sub-state play no part in the window claims). -/
structure ChinaModelState where
  current_era : ChinaEra
  era_config : ChinaEraConfig
  window_open : Bool
  window_missed : Bool
  window_era : Option ChinaEra
  mobility_multiplier : ℚ
deriving DecidableEq

/-- `ChinaCountryModel._check_window_status`. -/
def check_window_status (s : ChinaModelState) : ChinaModelState :=
  if s.current_era = ChinaEra.REFORM_EARLY then
    { s with window_open := true, window_era := some ChinaEra.REFORM_EARLY }
  else if s.current_era = ChinaEra.URBAN_BOOM then
    { s with window_open := true, window_era := some ChinaEra.URBAN_BOOM }
  else if s.current_era = ChinaEra.STRUCTURE_SOLIDIFY ∨
      s.current_era = ChinaEra.NEW_UNCERTAINTY then
    if s.window_missed = false ∧
        (s.window_era = some ChinaEra.REFORM_EARLY ∨
         s.window_era = some ChinaEra.URBAN_BOOM) then
      { s with window_missed := true
               mobility_multiplier := s.mobility_multiplier * (3/10) }
    else s
  else s

/-- `ChinaCountryModel.__init__` (the window-relevant part): era lookup for
the construction year, flags reset, then `_check_window_status`. -/
def china_init (year : ℤ) : ChinaModelState :=
  check_window_status
    { current_era := get_era_for_year year
      era_config := get_era_config (get_era_for_year year)
      window_open := false
      window_missed := false
      window_era := none
      mobility_multiplier := 1 }

/-- `ChinaCountryModel.update` (window-relevant part): on an era change,
swap in the new era configuration and re-evaluate the window status. -/
def china_update (s : ChinaModelState) (year : ℤ) : ChinaModelState :=
  let new_era := get_era_for_year year
  if new_era ≠ s.current_era then
    check_window_status
      { s with current_era := new_era, era_config := get_era_config new_era }
  else s

/-- A run of the China layer: construct at `year0`, then fold the yearly
updates over the given year list. -/
def china_run (year0 : ℤ) (years : List ℤ) : ChinaModelState :=
  years.foldl china_update (china_init year0)

/-- `ChinaCountryModel.apply_country_modifiers` (action types are strings,
as in the source). -/
def apply_country_modifiers (s : ChinaModelState) (action_type : String) :
    ℚ :=
  let m : ℚ := 1
  let m := if action_type = "study" then m * s.era_config.education_return
    else if action_type = "risk" then
      (let m := m * s.era_config.risk_reward_ratio
       if s.current_era = ChinaEra.NEW_UNCERTAINTY then
         m * (1 - s.era_config.risk_penalty)
       else m)
    else m
  if s.window_missed ∧ (action_type = "risk" ∨ action_type = "move") then
    m * s.mobility_multiplier
  else m

/-- `TransitionEngine._apply_move`, success-probability part (with a birth
profile, as in the v2 simulator): `person_score` stands for the value of
`calculate_person_score` on the current state, `country_mod` for
`country_model.apply_country_modifiers(person, "move")`.  The 0.95 cap is
applied before the country and city factors, exactly as in the source. -/
def move_success_chance (w : BaseWorldState) (person_score : ℚ)
    (country_mod : ℚ) (city : Option CityConfig) : ℚ :=
  let sc := 3/5 * w.get_opportunity_multiplier person_score
  let sc := min (19/20) sc
  let sc := sc * country_mod
  match city with
  | some c => sc * c.get_mobility_modifier
  | none => sc

/-- `TransitionEngine._apply_move`, outcome draw:
`rng.random() < success_chance`. -/
def move_succeeds (draw success_chance : ℚ) : Bool :=
  decide (draw < success_chance)

/-- `TransitionEngine._apply_risk`, success-chance computation: `draw` is the
uniform draw folded into the base chance, `draw2` the uniform draw of the
high-variance city branch, `country_mod` the value of
`apply_country_modifiers(person, "risk")`. -/
def risk_success_chance (w : BaseWorldState) (person : PersonState)
    (person_score : ℚ) (country_mod : ℚ) (city : Option CityConfig)
    (draw draw2 : ℚ) : ℚ :=
  let opportunity_mult := w.get_opportunity_multiplier person_score
  let base := person.skill_depth * (3/10) + person.social_capital * (1/5) +
    (w.economic_cycle + 1) / 2 * (3/10) + draw * (1/5)
  let sc := base * opportunity_mult
  let sc := sc * country_mod
  let sc := match city with
    | some c =>
      let sc := sc * c.get_city_modifier_for_action "risk"
      let sc := if c.startup_success_rate = "high_variance" then
          2/5 + draw2 * (2/5)
        else sc
      if c.age_penalty_age < person.age then sc * (7/10) else sc
    | none => sc
  min (19/20) sc

/-- `TransitionEngine._apply_risk`, outcome decision: the computed chance is
compared against the fixed threshold 0.5 (`if success_chance > 0.5`), with
no draw against the chance. -/
def risk_succeeds (success_chance : ℚ) : Bool :=
  decide (1/2 < success_chance)

/-- The attribute names that appear in `LifeEvent.impact` maps (the dynamic
`setattr`/`getattr` keys of `LifeEventDetector._apply_event_impact`; all of
them exist on `PersonState`, so the `hasattr` guard is always true). -/
inductive PersonField where
  | health
  | mental_health
  | energy
  | stress
  | education_level
  | skill_depth
  | skill_width
  | learning_rate
  | income
  | wealth
  | employment_stability
  | social_capital
  | loneliness
deriving DecidableEq

/-- `getattr(person, key)` for the impact keys. -/
def PersonState.get (p : PersonState) : PersonField → ℚ
  | PersonField.health => p.health
  | PersonField.mental_health => p.mental_health
  | PersonField.energy => p.energy
  | PersonField.stress => p.stress
  | PersonField.education_level => p.education_level
  | PersonField.skill_depth => p.skill_depth
  | PersonField.skill_width => p.skill_width
  | PersonField.learning_rate => p.learning_rate
  | PersonField.income => p.income
  | PersonField.wealth => p.wealth
  | PersonField.employment_stability => p.employment_stability
  | PersonField.social_capital => p.social_capital
  | PersonField.loneliness => p.loneliness

/-- `setattr(person, key, x)` for the impact keys. -/
def PersonState.set (p : PersonState) (k : PersonField) (x : ℚ) :
    PersonState :=
  match k with
  | PersonField.health => { p with health := x }
  | PersonField.mental_health => { p with mental_health := x }
  | PersonField.energy => { p with energy := x }
  | PersonField.stress => { p with stress := x }
  | PersonField.education_level => { p with education_level := x }
  | PersonField.skill_depth => { p with skill_depth := x }
  | PersonField.skill_width => { p with skill_width := x }
  | PersonField.learning_rate => { p with learning_rate := x }
  | PersonField.income => { p with income := x }
  | PersonField.wealth => { p with wealth := x }
  | PersonField.employment_stability => { p with employment_stability := x }
  | PersonField.social_capital => { p with social_capital := x }
  | PersonField.loneliness => { p with loneliness := x }

/-- The keys that `_apply_event_impact` caps at 1.0 on a positive delta
(`'health', 'mental_health', 'energy', 'stress'`). -/
def impact_cap_keys : List PersonField :=
  [PersonField.health, PersonField.mental_health, PersonField.energy,
   PersonField.stress]

/-- `LifeEventDetector._apply_event_impact`: iterate the impact map in
insertion order; a negative delta is floored at 0
(`max(0, current + value)`), a non-negative delta is capped at 1.0 for the
four keys above and added unclamped otherwise (`min(inf, current + value)`
is the identity).  The trailing `elif` of the source is unreachable (its
guard repeats the `isinstance` test of the `if`) and has no translation. -/
def apply_event_impact (p : PersonState) (impact : List (PersonField × ℚ)) :
    PersonState :=
  impact.foldl (fun p kv =>
    let current_value := p.get kv.1
    if kv.2 < 0 then
      p.set kv.1 (max 0 (current_value + kv.2))
    else if kv.1 ∈ impact_cap_keys then
      p.set kv.1 (min 1 (current_value + kv.2))
    else
      p.set kv.1 (current_value + kv.2)) p

/-- `narrative.life_events.LifeEvent`. -/
structure LifeEvent where
  year : ℤ
  age : ℕ
  title : String
  description : String
  impact : List (PersonField × ℚ)
  category : String

/-- `LifeEventDetector.check_events`: evaluate the six rules on the current
state (all impact values, e.g. `person.income * 0.3`, are computed before
any impact is applied, as in the source, where mutation happens only in the
final loop), then apply the impacts in order.  Returns the mutated state
and the new events. -/
def check_events (person : PersonState) (world : WorldState)
    (previous_state : PersonState) : PersonState × List LifeEvent :=
  let new_events : List LifeEvent :=
    (if 4/5 < person.stress ∧ previous_state.stress ≤ 4/5 then
      [{ year := world.year, age := person.age, title := "Burnout"
         description :=
           "Extreme stress leads to burnout. Health and productivity suffer."
         impact := [(PersonField.health, -1/10),
                    (PersonField.mental_health, -3/20),
                    (PersonField.energy, -1/5)]
         category := "health" }]
    else []) ++
    (if 7/10 < person.skill_depth ∧ 3/5 < person.employment_stability ∧
        0 < world.economic_cycle ∧ previous_state.skill_depth ≤ 7/10 then
      [{ year := world.year, age := person.age
         title := "Career Breakthrough"
         description :=
           "Your expertise and dedication pay off. Major career advancement."
         impact := [(PersonField.income, person.income * (3/10)),
                    (PersonField.wealth, 2000),
                    (PersonField.social_capital, 1/10)]
         category := "career" }]
    else []) ++
    (if 9/10 < person.loneliness ∧ previous_state.loneliness ≤ 9/10 then
      [{ year := world.year, age := person.age, title := "Social Isolation"
         description :=
           "Extreme loneliness takes its toll. Mental health deteriorates."
         impact := [(PersonField.mental_health, -1/5),
                    (PersonField.health, -1/20)]
         category := "social" }]
    else []) ++
    (if person.wealth < 0 ∧ person.income < 500 ∧
        world.economic_cycle < -1/2 then
      [{ year := world.year, age := person.age, title := "Economic Hardship"
         description := "Financial difficulties during economic downturn."
         impact := [(PersonField.stress, 3/20),
                    (PersonField.mental_health, -1/10)]
         category := "economic" }]
    else []) ++
    (if 4/5 ≤ person.education_level ∧
        previous_state.education_level < 4/5 then
      [{ year := world.year, age := person.age
         title := "Educational Achievement"
         description :=
           "Reached high level of education. New opportunities open."
         impact := [(PersonField.skill_depth, 1/10),
                    (PersonField.income, person.income * (1/5))]
         category := "milestone" }]
    else []) ++
    (if person.health < 3/10 ∧ 3/10 ≤ previous_state.health then
      [{ year := world.year, age := person.age, title := "Health Crisis"
         description :=
           "Serious health problems emerge. Requires attention and resources."
         impact := [(PersonField.wealth, -2000),
                    (PersonField.energy, -3/10)]
         category := "health" }]
    else [])
  (new_events.foldl (fun p e => apply_event_impact p e.impact) person,
   new_events)

/-- `LifeSimulatorV2._initialize_person`: the fixed initialisation formula
from the birth profile, on top of the dataclass defaults. -/
def init_person (birth : BirthProfile) : PersonState :=
  { PersonState.default with
    health := birth.genetic_health
    mental_health := 7/10 + birth.family_stability * (1/5)
    energy := 4/5
    stress := 1/5 - birth.family_stability * (1/10)
    learning_rate := birth.cognitive_potential
    education_level := birth.parents_education * (3/10)
    wealth := birth.family_class * 10000
    income := 0
    social_capital := birth.family_stability * (3/10)
    loneliness := 3/10 - birth.family_stability * (1/5) }

/- ------------------------------------------------------------------ -/
/- Helper lemmas                                                       -/
/- ------------------------------------------------------------------ -/

theorem clamp01_eq_self {x : ℚ} (h0 : 0 ≤ x) (h1 : x ≤ 1) : clamp01 x = x := by
  unfold clamp01
  rw [min_eq_right h1, max_eq_right h0]

theorem clamp_values_eq_self (p : PersonState) (h : p.bounded_in_range) :
    p.clamp_values = p := by
  obtain ⟨⟨a0, a1⟩, ⟨b0, b1⟩, ⟨c0, c1⟩, ⟨d0, d1⟩, ⟨e0, e1⟩, ⟨f0, f1⟩,
    ⟨g0, g1⟩, ⟨i0, i1⟩, ⟨j0, j1⟩, ⟨k0, k1⟩, ⟨l0, l1⟩⟩ := h
  unfold PersonState.clamp_values
  rw [clamp01_eq_self a0 a1, clamp01_eq_self b0 b1, clamp01_eq_self c0 c1,
    clamp01_eq_self d0 d1, clamp01_eq_self e0 e1, clamp01_eq_self f0 f1,
    clamp01_eq_self g0 g1, clamp01_eq_self i0 i1, clamp01_eq_self j0 j1,
    clamp01_eq_self k0 k1, clamp01_eq_self l0 l1]

theorem PersonState.get_set (p : PersonState) (k : PersonField) (x : ℚ) :
    (p.set k x).get k = x := by
  cases k <;> rfl

theorem mem_ite_singleton_append (c : Prop) [Decidable c] (a b : Action)
    (l : List Action) :
    a ∈ (if c then [b] else []) ++ l ↔ (c ∧ a = b) ∨ a ∈ l := by
  split_ifs <;> simp_all

theorem mem_ite_singleton (c : Prop) [Decidable c] (a b : Action) :
    a ∈ (if c then [b] else []) ↔ c ∧ a = b := by
  split_ifs <;> simp_all

theorem mem_ite_ite_singleton_append (c d : Prop) [Decidable c]
    [Decidable d] (a b : Action) (l : List Action) :
    a ∈ (if c then [b] else if d then [b] else []) ++ l ↔
      ((c ∨ d) ∧ a = b) ∨ a ∈ l := by
  split_ifs <;> simp_all

/- ------------------------------------------------------------------ -/
/- Claims                                                              -/
/- ------------------------------------------------------------------ -/

/-- C10: for every birth profile whose five endowment scalars lie in [0,1],
the initial state produced by `_initialize_person` already satisfies the
bounded-field invariant with no clamp (the clamp is a no-op on it): age is
0, income is 0, wealth is `family_class * 10000` and non-negative, every
bounded field is in [0,1], and in particular stress lies in [0.1,0.2],
mental health in [0.7,0.9], loneliness in [0.1,0.3] and social capital in
[0,0.3]. -/
theorem claim10_init_person_in_range (b : BirthProfile)
    (hfc : in01 b.family_class) (hpe : in01 b.parents_education)
    (hfs : in01 b.family_stability) (hgh : in01 b.genetic_health)
    (hcp : in01 b.cognitive_potential) :
    (init_person b).age = 0 ∧
    (init_person b).income = 0 ∧
    (init_person b).wealth = b.family_class * 10000 ∧
    0 ≤ (init_person b).wealth ∧
    (init_person b).bounded_in_range ∧
    (1/10 ≤ (init_person b).stress ∧ (init_person b).stress ≤ 1/5) ∧
    (7/10 ≤ (init_person b).mental_health ∧
      (init_person b).mental_health ≤ 9/10) ∧
    (1/10 ≤ (init_person b).loneliness ∧
      (init_person b).loneliness ≤ 3/10) ∧
    (0 ≤ (init_person b).social_capital ∧
      (init_person b).social_capital ≤ 3/10) ∧
    (init_person b).clamp_values = init_person b := by
  obtain ⟨hfc0, hfc1⟩ := hfc
  obtain ⟨hpe0, hpe1⟩ := hpe
  obtain ⟨hfs0, hfs1⟩ := hfs
  obtain ⟨hgh0, hgh1⟩ := hgh
  obtain ⟨hcp0, hcp1⟩ := hcp
  have hrange : (init_person b).bounded_in_range := by
    simp only [init_person, PersonState.default, PersonState.bounded_in_range,
      in01]
    refine ⟨⟨hgh0, hgh1⟩, ⟨by linarith, by linarith⟩, ⟨by norm_num, by norm_num⟩,
      ⟨by linarith, by linarith⟩, ⟨by linarith, by linarith⟩,
      ⟨by norm_num, by norm_num⟩, ⟨by norm_num, by norm_num⟩,
      ⟨hcp0, hcp1⟩, ⟨by norm_num, by norm_num⟩,
      ⟨by linarith, by linarith⟩, ⟨by linarith, by linarith⟩⟩
  refine ⟨rfl, rfl, rfl, ?_, hrange, ⟨?_, ?_⟩, ⟨?_, ?_⟩, ⟨?_, ?_⟩, ⟨?_, ?_⟩,
    clamp_values_eq_self _ hrange⟩ <;>
    simp only [init_person, PersonState.default] <;> linarith

/-- The end-to-end scenario profile of the spec (family class 0.6, parents
education 0.7, family stability 0.8, genetic health 0.75, cognitive
potential 0.65). -/
def scenario_birth : BirthProfile :=
  { birth_year := 1980, region := "Urban", family_class := 3/5
    parents_education := 7/10, family_stability := 4/5
    genetic_health := 3/4, cognitive_potential := 13/20 }

/-- Witness for C10 at the end-to-end scenario profile of the spec. -/
theorem claim10_witness :
    in01 scenario_birth.family_class ∧
    in01 scenario_birth.parents_education ∧
    in01 scenario_birth.family_stability ∧
    in01 scenario_birth.genetic_health ∧
    in01 scenario_birth.cognitive_potential ∧
    ((init_person scenario_birth).age = 0 ∧
     (init_person scenario_birth).income = 0 ∧
     (init_person scenario_birth).wealth =
       scenario_birth.family_class * 10000 ∧
     0 ≤ (init_person scenario_birth).wealth ∧
     (init_person scenario_birth).bounded_in_range ∧
     (1/10 ≤ (init_person scenario_birth).stress ∧
       (init_person scenario_birth).stress ≤ 1/5) ∧
     (7/10 ≤ (init_person scenario_birth).mental_health ∧
       (init_person scenario_birth).mental_health ≤ 9/10) ∧
     (1/10 ≤ (init_person scenario_birth).loneliness ∧
       (init_person scenario_birth).loneliness ≤ 3/10) ∧
     (0 ≤ (init_person scenario_birth).social_capital ∧
       (init_person scenario_birth).social_capital ≤ 3/10) ∧
     (init_person scenario_birth).clamp_values = init_person scenario_birth) :=
  ⟨by norm_num [in01, scenario_birth], by norm_num [in01, scenario_birth],
   by norm_num [in01, scenario_birth], by norm_num [in01, scenario_birth],
   by norm_num [in01, scenario_birth],
   claim10_init_person_in_range scenario_birth
     (by norm_num [in01, scenario_birth]) (by norm_num [in01, scenario_birth])
     (by norm_num [in01, scenario_birth]) (by norm_num [in01, scenario_birth])
     (by norm_num [in01, scenario_birth])⟩

/-- C3: score at least 0.8 classifies elite, and the three Pareto
multiplier functions return exactly the elite / non-elite asymmetry:
wealth `4*(1+0.5*inequality)` vs `0.25*(1-0.3*inequality)`, opportunity 4
vs 0.25 flat, technology benefit `1+0.5*tech` vs `0.3+0.2*tech`; an elite
score never receives a 0.25 branch value. -/
theorem claim3_pareto_multipliers (w : BaseWorldState) (s : ℚ) :
    (4/5 ≤ s →
      w.is_in_elite_percentile s = true ∧
      w.get_wealth_multiplier s = 4 * (1 + (1/2) * w.inequality) ∧
      w.get_opportunity_multiplier s = 4 ∧
      w.get_tech_benefit_multiplier s = 1 + (1/2) * w.tech_level) ∧
    (s < 4/5 →
      w.is_in_elite_percentile s = false ∧
      w.get_wealth_multiplier s = (1/4) * (1 - (3/10) * w.inequality) ∧
      w.get_opportunity_multiplier s = 1/4 ∧
      w.get_tech_benefit_multiplier s = 3/10 + (1/5) * w.tech_level) ∧
    (4/5 ≤ s → 0 ≤ w.inequality → w.inequality ≤ 1 →
      w.get_wealth_multiplier s ≠ (1/4) * (1 - (3/10) * w.inequality) ∧
      w.get_opportunity_multiplier s ≠ 1/4) := by
  refine ⟨fun h => ?_, fun h => ?_, fun h h0 h1 => ?_⟩
  · have hb : w.is_in_elite_percentile s = true := by
      simp [BaseWorldState.is_in_elite_percentile, PARETO_ELITE_THRESHOLD, h]
    refine ⟨hb, ?_, ?_, ?_⟩ <;>
      simp [BaseWorldState.get_wealth_multiplier,
        BaseWorldState.get_opportunity_multiplier,
        BaseWorldState.get_tech_benefit_multiplier, hb] <;> ring
  · have hb : w.is_in_elite_percentile s = false := by
      simp only [BaseWorldState.is_in_elite_percentile,
        PARETO_ELITE_THRESHOLD, decide_eq_false_iff_not]
      exact not_le.mpr h
    refine ⟨hb, ?_, ?_, ?_⟩ <;>
      simp [BaseWorldState.get_wealth_multiplier,
        BaseWorldState.get_opportunity_multiplier,
        BaseWorldState.get_tech_benefit_multiplier, hb] <;> ring
  · have hb : w.is_in_elite_percentile s = true := by
      simp [BaseWorldState.is_in_elite_percentile, PARETO_ELITE_THRESHOLD, h]
    simp only [BaseWorldState.get_wealth_multiplier,
      BaseWorldState.get_opportunity_multiplier, hb, if_true]
    constructor
    · intro heq
      nlinarith [heq]
    · norm_num

/-- A sample base-world state for witnesses: inequality 0.5, tech 0.5. -/
def sample_world : BaseWorldState :=
  { year := 2000, economic_cycle := 0, tech_level := 1/2
    inequality := 1/2, social_mobility := 1/2 }

/-- Witness for C3, with inequality 0.5, an elite score 0.9 and a
non-elite score 0.5. -/
theorem claim3_witness :
    ((4:ℚ)/5 ≤ 9/10) ∧ ((1/2:ℚ) < 4/5) ∧ (0 ≤ sample_world.inequality) ∧
    (sample_world.inequality ≤ 1) ∧
    (sample_world.is_in_elite_percentile (9/10) = true ∧
      sample_world.get_wealth_multiplier (9/10) =
        4 * (1 + (1/2) * sample_world.inequality) ∧
      sample_world.get_opportunity_multiplier (9/10) = 4 ∧
      sample_world.get_tech_benefit_multiplier (9/10) =
        1 + (1/2) * sample_world.tech_level) ∧
    (sample_world.is_in_elite_percentile (1/2) = false ∧
      sample_world.get_wealth_multiplier (1/2) =
        (1/4) * (1 - (3/10) * sample_world.inequality) ∧
      sample_world.get_opportunity_multiplier (1/2) = 1/4 ∧
      sample_world.get_tech_benefit_multiplier (1/2) =
        3/10 + (1/5) * sample_world.tech_level) ∧
    (sample_world.get_wealth_multiplier (9/10) ≠
        (1/4) * (1 - (3/10) * sample_world.inequality) ∧
      sample_world.get_opportunity_multiplier (9/10) ≠ 1/4) :=
  ⟨by norm_num, by norm_num, by norm_num [sample_world],
   by norm_num [sample_world],
   (claim3_pareto_multipliers sample_world (9/10)).1 (by norm_num),
   (claim3_pareto_multipliers sample_world (1/2)).2.1 (by norm_num),
   (claim3_pareto_multipliers sample_world (9/10)).2.2 (by norm_num)
     (by norm_num [sample_world]) (by norm_num [sample_world])⟩

/-- Counterexample to C2: `_apply_event_impact` does not add wealth deltas
unclamped — a negative wealth delta is floored at 0 (the Health Crisis
impact of -2000 on wealth 1000 yields 0, not -1000) — and a positive
skill_depth delta is not capped at 1 (the Educational Achievement impact
of +0.1 on skill_depth 0.95 yields 1.05). -/
theorem claim2_counterexample :
    (apply_event_impact { PersonState.default with wealth := 1000 }
        [(PersonField.wealth, -2000)]).wealth = 0 ∧
    (apply_event_impact { PersonState.default with wealth := 1000 }
        [(PersonField.wealth, -2000)]).wealth ≠ 1000 + -2000 ∧
    (apply_event_impact { PersonState.default with skill_depth := 19/20 }
        [(PersonField.skill_depth, 1/10)]).skill_depth = 21/20 ∧
    ¬ (apply_event_impact { PersonState.default with skill_depth := 19/20 }
        [(PersonField.skill_depth, 1/10)]).skill_depth ≤ 1 := by
  simp [apply_event_impact, impact_cap_keys, PersonState.get,
    PersonState.set, PersonState.default, max_def, min_def] <;> norm_num

/-- C2 (amended): `_apply_event_impact` floors the target field at 0 for
every negative delta — including income and wealth — and for a
non-negative delta caps the sum at 1 only for health, mental health,
energy and stress, adding the delta unclamped to every other field
(including skill_depth, social_capital, income and wealth). -/
theorem claim2_amended_impact_rule (p : PersonState) (k : PersonField)
    (v : ℚ) :
    (v < 0 →
      (apply_event_impact p [(k, v)]).get k = max 0 (p.get k + v)) ∧
    (0 ≤ v →
      (apply_event_impact p [(k, v)]).get k =
        if k ∈ impact_cap_keys then min 1 (p.get k + v)
        else p.get k + v) := by
  constructor
  · intro h
    simp only [apply_event_impact, List.foldl_cons, List.foldl_nil, if_pos h]
    exact PersonState.get_set p k _
  · intro h
    have h2 : ¬ v < 0 := not_lt.mpr h
    simp only [apply_event_impact, List.foldl_cons, List.foldl_nil,
      if_neg h2]
    by_cases hk : k ∈ impact_cap_keys
    · simp only [if_pos hk]
      exact PersonState.get_set p k _
    · simp only [if_neg hk]
      exact PersonState.get_set p k _

/-- Witness for the amended C2: a negative wealth delta is floored at 0
and a positive skill_depth delta is added unclamped. -/
theorem claim2_amended_witness :
    ((-2000 : ℚ) < 0) ∧
    (apply_event_impact { PersonState.default with wealth := 1000 }
        [(PersonField.wealth, -2000)]).get PersonField.wealth =
      max 0 (({ PersonState.default with wealth := 1000 } :
          PersonState).get PersonField.wealth + -2000) ∧
    ((0 : ℚ) ≤ 1/10) ∧
    (apply_event_impact { PersonState.default with skill_depth := 19/20 }
        [(PersonField.skill_depth, 1/10)]).get PersonField.skill_depth =
      (if PersonField.skill_depth ∈ impact_cap_keys then
        min 1 (({ PersonState.default with skill_depth := 19/20 } :
            PersonState).get PersonField.skill_depth + 1/10)
      else ({ PersonState.default with skill_depth := 19/20 } :
            PersonState).get PersonField.skill_depth + 1/10) :=
  ⟨by norm_num,
   (claim2_amended_impact_rule _ PersonField.wealth (-2000)).1 (by norm_num),
   by norm_num,
   (claim2_amended_impact_rule _ PersonField.skill_depth (1/10)).2
     (by norm_num)⟩

/-- C8: the admissible-action set of the decision engine contains exactly
the six actions with their eligibility conditions: Study iff (age<30 or
education<0.8) and energy>0.3; Work iff age at least 18 and health>0.2;
Rest iff stress>0.5 or health<0.5 or energy<0.3; Move iff (employment
stability<0.5 or risk preference>0.6) and age<50; Risk iff risk
preference>0.5 and (economic cycle>0 or wealth>0.3) and age<60; Relation
iff loneliness>0.4 or social drive>0.5. -/
theorem claim8_available_actions (person : PersonState) (world : WorldState)
    (personality : Personality) :
    (Action.study ∈ get_available_actions person world personality ↔
      (person.age < 30 ∨ person.education_level < 4/5) ∧
        3/10 < person.energy) ∧
    (Action.work ∈ get_available_actions person world personality ↔
      18 ≤ person.age ∧ 1/5 < person.health) ∧
    (Action.rest ∈ get_available_actions person world personality ↔
      (1/2 < person.stress ∨ person.health < 1/2 ∨
        person.energy < 3/10)) ∧
    (Action.move ∈ get_available_actions person world personality ↔
      (person.employment_stability < 1/2 ∨
        3/5 < personality.risk_preference) ∧ person.age < 50) ∧
    (Action.risk ∈ get_available_actions person world personality ↔
      1/2 < personality.risk_preference ∧
        (0 < world.economic_cycle ∨ 3/10 < person.wealth) ∧
        person.age < 60) ∧
    (Action.relation ∈ get_available_actions person world personality ↔
      (2/5 < person.loneliness ∨ 1/2 < personality.social_drive)) := by
  refine ⟨?_, ?_, ?_, ?_, ?_, ?_⟩ <;>
    simp only [get_available_actions, List.append_assoc,
      mem_ite_singleton_append, mem_ite_ite_singleton_append,
      mem_ite_singleton] <;>
    simp <;> tauto

/-- Counterexample to C5: for an elite person (score 0.9) moving with the
Shenzhen configuration (mobility threshold "low", city modifier 1.2) under
a China layer whose window is open (country modifier 1), the probability
compared against the random draw is 0.95 * 1.2 = 1.14 > 0.95: the 0.95 cap
is applied before the country and city modifiers, not after. -/
theorem claim5_counterexample :
    move_success_chance sample_world (9/10)
        (apply_country_modifiers (china_init 1990) "move") (some shenzhen) =
      57/50 ∧
    ¬ move_success_chance sample_world (9/10)
        (apply_country_modifiers (china_init 1990) "move") (some shenzhen) ≤
      19/20 := by
  have hmod : apply_country_modifiers (china_init 1990) "move" = 1 := by
    simp [apply_country_modifiers, china_init, check_window_status,
      get_era_for_year]
  rw [hmod]
  simp [move_success_chance, BaseWorldState.get_opportunity_multiplier,
    BaseWorldState.is_in_elite_percentile, PARETO_ELITE_THRESHOLD,
    CityConfig.get_mobility_modifier, shenzhen, min_def] <;> norm_num

/-- C5 (amended): the Move success probability is
`min(0.95, 0.6 * opportunity_multiplier)` further multiplied by the country
modifier and the city mobility modifier — i.e. the 0.95 cap is applied
before those two factors, so the compared probability stays at most 0.95
only when both factors are at most 1 (and can exceed 0.95 otherwise, as
the counterexample shows). -/
theorem claim5_amended_move_chance (w : BaseWorldState)
    (person_score country_mod : ℚ) (c : CityConfig) :
    move_success_chance w person_score country_mod (some c) =
      min (19/20) (3/5 * w.get_opportunity_multiplier person_score) *
        country_mod * c.get_mobility_modifier ∧
    (0 ≤ country_mod → country_mod ≤ 1 → 0 ≤ c.get_mobility_modifier →
      c.get_mobility_modifier ≤ 1 →
      move_success_chance w person_score country_mod (some c) ≤ 19/20) := by
  constructor
  · rfl
  · intro h1 h2 h3 h4
    have hopp : 0 < w.get_opportunity_multiplier person_score := by
      unfold BaseWorldState.get_opportunity_multiplier
      split <;> norm_num
    have hm0 : 0 ≤ min (19/20) (3/5 * w.get_opportunity_multiplier
        person_score) :=
      le_min (by norm_num) (by positivity)
    have hm1 : min (19/20) (3/5 * w.get_opportunity_multiplier
        person_score) ≤ 19/20 := min_le_left _ _
    have s1 : min (19/20) (3/5 * w.get_opportunity_multiplier person_score) *
        country_mod ≤
        min (19/20) (3/5 * w.get_opportunity_multiplier person_score) :=
      mul_le_of_le_one_right hm0 h2
    have s2 : 0 ≤ min (19/20)
        (3/5 * w.get_opportunity_multiplier person_score) * country_mod :=
      mul_nonneg hm0 h1
    have s3 : min (19/20) (3/5 * w.get_opportunity_multiplier person_score) *
        country_mod * c.get_mobility_modifier ≤
        min (19/20) (3/5 * w.get_opportunity_multiplier person_score) *
          country_mod :=
      mul_le_of_le_one_right s2 h4
    show min (19/20) (3/5 * w.get_opportunity_multiplier person_score) *
      country_mod * c.get_mobility_modifier ≤ 19/20
    linarith

/-- Witness for the amended C5: Beijing (mobility modifier 0.8) with
country modifier 1 keeps the compared probability at or below 0.95. -/
theorem claim5_amended_witness :
    (move_success_chance sample_world (9/10) 1 (some beijing) =
      min (19/20) (3/5 * sample_world.get_opportunity_multiplier (9/10)) *
        1 * beijing.get_mobility_modifier) ∧
    (0 ≤ (1:ℚ)) ∧ ((1:ℚ) ≤ 1) ∧ (0 ≤ beijing.get_mobility_modifier) ∧
    (beijing.get_mobility_modifier ≤ 1) ∧
    move_success_chance sample_world (9/10) 1 (some beijing) ≤ 19/20 :=
  ⟨(claim5_amended_move_chance sample_world (9/10) 1 beijing).1,
   by norm_num, by norm_num,
   by { simp [CityConfig.get_mobility_modifier, beijing]; norm_num },
   by { simp [CityConfig.get_mobility_modifier, beijing]; norm_num },
   (claim5_amended_move_chance sample_world (9/10) 1 beijing).2
     (by norm_num) (by norm_num)
     (by { simp [CityConfig.get_mobility_modifier, beijing]; norm_num })
     (by { simp [CityConfig.get_mobility_modifier, beijing]; norm_num })⟩

/-- C6: the Risk action's outcome in the layered engine is decided by
comparing the computed success-chance score against the fixed threshold
0.5 — success if and only if the score exceeds 0.5, with no Bernoulli draw
against the score — whereas Move draws a Bernoulli sample against its
computed probability (so for any Move probability strictly between 0 and 1
both outcomes are realized by suitable draws in [0,1)). -/
theorem claim6_risk_threshold (w : BaseWorldState) (person : PersonState)
    (person_score country_mod : ℚ) (city : Option CityConfig)
    (draw draw2 : ℚ) :
    (risk_succeeds
        (risk_success_chance w person person_score country_mod city
          draw draw2) = true ↔
      1/2 < risk_success_chance w person person_score country_mod city
        draw draw2) ∧
    (∀ d chance : ℚ, move_succeeds d chance = true ↔ d < chance) ∧
    (∀ chance : ℚ, 0 < chance → chance < 1 →
      ∃ d1 d2 : ℚ, 0 ≤ d1 ∧ d1 < 1 ∧ 0 ≤ d2 ∧ d2 < 1 ∧
        move_succeeds d1 chance = true ∧
        move_succeeds d2 chance = false) := by
  refine ⟨by simp [risk_succeeds], fun d chance => by simp [move_succeeds],
    fun chance h0 h1 => ?_⟩
  refine ⟨0, chance, le_refl 0, by norm_num, le_of_lt h0, h1, ?_, ?_⟩
  · simp [move_succeeds, h0]
  · simp [move_succeeds]

/-- Witness for C6 at probability 1/2: both Move outcomes are realized. -/
theorem claim6_witness :
    (risk_succeeds
        (risk_success_chance sample_world PersonState.default (9/10) 1
          (some shenzhen) (1/2) (1/2)) = true ↔
      1/2 < risk_success_chance sample_world PersonState.default (9/10) 1
        (some shenzhen) (1/2) (1/2)) ∧
    (0 < (1/2 : ℚ)) ∧ ((1/2 : ℚ) < 1) ∧
    (∃ d1 d2 : ℚ, 0 ≤ d1 ∧ d1 < 1 ∧ 0 ≤ d2 ∧ d2 < 1 ∧
      move_succeeds d1 (1/2) = true ∧ move_succeeds d2 (1/2) = false) :=
  ⟨(claim6_risk_threshold sample_world PersonState.default (9/10) 1
      (some shenzhen) (1/2) (1/2)).1,
   by norm_num, by norm_num,
   (claim6_risk_threshold sample_world PersonState.default (9/10) 1
      (some shenzhen) (1/2) (1/2)).2.2 (1/2) (by norm_num) (by norm_num)⟩

/-- A state on which `_auto_select` hangs: age 35 with education 0.9 rules
out Study, health 0.6 admits Work, moderate stress/energy rule out Rest,
stability 0.6 with risk preference 0.5 rules out Move and Risk, and low
loneliness/social drive rule out Relation — Work is the only available
action. -/
def hang_person : PersonState :=
  { PersonState.default with
    age := 35, health := 3/5, energy := 2/5, stress := 3/10
    education_level := 9/10, employment_stability := 3/5
    loneliness := 3/10 }

/-- A personality with no dominant trait (all priority rules below 0.7). -/
def hang_personality : Personality :=
  { openness := 1/2, conscientiousness := 1/2, risk_preference := 1/2
    social_drive := 2/5, resilience := 1/2 }

/-- A neutral world for the hang state (economic cycle 0). -/
def hang_world : WorldState :=
  { year := 2010, economic_cycle := 0, tech_level := 1/2
    social_mobility := 1/2, inequality := 1/2, conflict_risk := 1/10 }

/-- C9 refuted: at the state above, the available-action list is exactly
[Work], the two priority phases select nothing, and the fill loop of
`_auto_select` never exits for any amount of fuel — after one pass Work is
selected, the loop guard `len(selected) < 2 and available` stays true, and
no pass can add anything, so `select_actions` does not terminate and the
driver loop is not reached again. -/
theorem claim9_auto_select_diverges :
    get_available_actions hang_person hang_world hang_personality =
      [Action.work] ∧
    auto_select_priority [Action.work] hang_person hang_personality = [] ∧
    ∀ fuel : ℕ, fill_loop_fuel 2 [Action.work] fuel [] = none := by
  refine ⟨?_, ?_, ?_⟩
  · simp [get_available_actions, hang_person, hang_world, hang_personality,
      PersonState.default] <;> norm_num
  · simp [auto_select_priority, hang_person, hang_personality,
      PersonState.default] <;> norm_num
  · have key : ∀ fuel : ℕ,
        fill_loop_fuel 2 [Action.work] fuel [Action.work] = none := by
      intro fuel
      induction fuel with
      | zero => rfl
      | succ n ih =>
        have hstep : fill_step [Action.work] [Action.work] =
            [Action.work] := by
          simp [fill_step, List.find?]
        simp only [fill_loop_fuel]
        rw [if_pos (by simp), hstep]
        exact ih
    intro fuel
    cases fuel with
    | zero => rfl
    | succ n =>
      have hstep : fill_step [Action.work] [] = [Action.work] := by
        simp [fill_step, List.find?]
      simp only [fill_loop_fuel]
      rw [if_pos (by simp), hstep]
      exact key n

/-- The end-of-year state before the transition engine's clamp in the C1
failing run: social capital transiently at 1.2, skill depth risen to 0.75
with stable employment. -/
def c1_raw : PersonState :=
  { age := 30, health := 4/5, mental_health := 7/10, energy := 3/5
    stress := 3/10, education_level := 1/2, skill_depth := 3/4
    skill_width := 1/2, learning_rate := 1/2, income := 1000
    wealth := 1000, employment_stability := 7/10, social_capital := 6/5
    loneliness := 1/5 }

/-- World snapshot for the C1 failing year: a positive economic cycle. -/
def c1_world : WorldState :=
  { year := 2010, economic_cycle := 1/2, tech_level := 1/2
    social_mobility := 1/2, inequality := 1/2, conflict_risk := 1/10 }

/-- C1 refuted on the year-end pipeline: the clamp step restores the
invariant (social capital 1.2 is clamped to 1), but the Event Detector
then fires Career Breakthrough (skill depth 0.75 crossed 0.7, stability
0.7 > 0.6, positive cycle) and adds +0.1 to social capital unclamped,
leaving the completed year's state with social capital 1.1 outside
[0,1]. -/
theorem claim1_post_year_invariant_violated :
    (PersonState.clamp_values c1_raw).bounded_in_range ∧
    ((check_events (PersonState.clamp_values c1_raw) c1_world
        PersonState.default).1).social_capital = 11/10 ∧
    ¬ ((check_events (PersonState.clamp_values c1_raw) c1_world
        PersonState.default).1).bounded_in_range := by
  have hmem_income : (PersonField.income ∈ impact_cap_keys) = False := by
    simp [impact_cap_keys]
  have hmem_wealth : (PersonField.wealth ∈ impact_cap_keys) = False := by
    simp [impact_cap_keys]
  have hmem_sc : (PersonField.social_capital ∈ impact_cap_keys) = False := by
    simp [impact_cap_keys]
  have hclamp : PersonState.clamp_values c1_raw =
      { c1_raw with social_capital := 1 } := by
    norm_num [PersonState.clamp_values, c1_raw, clamp01, max_def, min_def]
  have hfired : check_events (PersonState.clamp_values c1_raw) c1_world
      PersonState.default =
      (apply_event_impact { c1_raw with social_capital := 1 }
        [(PersonField.income, 300), (PersonField.wealth, 2000),
         (PersonField.social_capital, 1/10)],
       [{ year := 2010, age := 30, title := "Career Breakthrough"
          description :=
            "Your expertise and dedication pay off. Major career advancement."
          impact := [(PersonField.income, 300), (PersonField.wealth, 2000),
            (PersonField.social_capital, 1/10)]
          category := "career" }]) := by
    rw [hclamp]
    norm_num [check_events, c1_raw, c1_world, PersonState.default]
  have happlied : apply_event_impact { c1_raw with social_capital := 1 }
      [(PersonField.income, 300), (PersonField.wealth, 2000),
       (PersonField.social_capital, 1/10)] =
      { c1_raw with
        income := 1300
        wealth := 3000
        social_capital := 11/10 } := by
    norm_num [apply_event_impact, PersonState.get, PersonState.set,
      hmem_income, hmem_wealth, hmem_sc, c1_raw, max_def, min_def]
  refine ⟨?_, ?_, ?_⟩
  · rw [hclamp]
    norm_num [PersonState.bounded_in_range, in01, c1_raw]
  · rw [hfired, happlied]
  · rw [hfired, happlied]
    norm_num [PersonState.bounded_in_range, in01, c1_raw]

theorem check_window_status_missed_stable (s : ChinaModelState)
    (h : s.window_missed = true) :
    (check_window_status s).window_missed = true ∧
    (check_window_status s).mobility_multiplier = s.mobility_multiplier := by
  unfold check_window_status
  split_ifs <;> simp_all

theorem era_before_1978 (y : ℤ) (hy : y < 1978) :
    get_era_for_year y = ChinaEra.ESTABLISHMENT ∨
    get_era_for_year y = ChinaEra.TURBULENCE := by
  unfold get_era_for_year
  split_ifs
  · exact Or.inl rfl
  · exact Or.inr rfl
  all_goals omega

theorem check_window_status_pre (s : ChinaModelState)
    (he : s.current_era = ChinaEra.ESTABLISHMENT ∨
      s.current_era = ChinaEra.TURBULENCE) :
    check_window_status s = s := by
  unfold check_window_status
  rcases he with he | he <;> simp [he]

theorem china_update_pre (s : ChinaModelState) (y : ℤ) (hy : y < 1978)
    (h1 : s.window_missed = false) (h2 : s.window_era = none) :
    (china_update s y).window_missed = false ∧
    (china_update s y).window_era = none := by
  unfold china_update
  dsimp only
  split_ifs with hne
  · rw [check_window_status_pre _ (by
      rcases era_before_1978 y hy with he | he <;> simp [he])]
    exact ⟨h1, h2⟩
  · exact ⟨h1, h2⟩

theorem china_init_pre (year0 : ℤ) (h0 : year0 < 1978) :
    (china_init year0).window_missed = false ∧
    (china_init year0).window_era = none := by
  unfold china_init
  rw [check_window_status_pre _ (by
    rcases era_before_1978 year0 h0 with he | he <;> simp [he])]
  exact ⟨rfl, rfl⟩

theorem china_fold_pre (years : List ℤ) :
    ∀ s : ChinaModelState, s.window_missed = false → s.window_era = none →
      (∀ y ∈ years, y < 1978) →
      (years.foldl china_update s).window_missed = false ∧
      (years.foldl china_update s).window_era = none := by
  induction years with
  | nil => exact fun s h1 h2 _ => ⟨h1, h2⟩
  | cons y ys ih =>
    intro s h1 h2 hall
    have hy : y < 1978 := hall y (List.mem_cons_self y ys)
    have step := china_update_pre s y hy h1 h2
    exact ih (china_update s y) step.1 step.2
      (fun z hz => hall z (List.mem_cons_of_mem _ hz))

/-- C7: over yearly updates of the China layer — a run whose years all
precede the window eras (before 1978) never sets `window_missed`; on the
era transition into STRUCTURE_SOLIDIFY or NEW_UNCERTAINTY after a window
era was recorded, `window_missed` flips to true and the mobility
multiplier becomes the pre-flag value times 0.3; once the flag is set no
later update ever changes the flag or the multiplier again (so the flag
is set exactly once); and `apply_country_modifiers` multiplies the risk
and move modifiers by the multiplier from then on. -/
theorem claim7_window_mechanism :
    (∀ (year0 : ℤ) (years : List ℤ), year0 < 1978 →
      (∀ y ∈ years, y < 1978) →
      (china_run year0 years).window_missed = false) ∧
    (∀ (s : ChinaModelState) (y : ℤ), s.window_missed = false →
      (s.window_era = some ChinaEra.REFORM_EARLY ∨
        s.window_era = some ChinaEra.URBAN_BOOM) →
      (get_era_for_year y = ChinaEra.STRUCTURE_SOLIDIFY ∨
        get_era_for_year y = ChinaEra.NEW_UNCERTAINTY) →
      get_era_for_year y ≠ s.current_era →
      (china_update s y).window_missed = true ∧
      (china_update s y).mobility_multiplier =
        s.mobility_multiplier * (3/10)) ∧
    (∀ (s : ChinaModelState) (y : ℤ), s.window_missed = true →
      (china_update s y).window_missed = true ∧
      (china_update s y).mobility_multiplier = s.mobility_multiplier) ∧
    (∀ s : ChinaModelState, s.window_missed = true →
      apply_country_modifiers s "move" = s.mobility_multiplier ∧
      apply_country_modifiers s "risk" =
        (if s.current_era = ChinaEra.NEW_UNCERTAINTY then
          s.era_config.risk_reward_ratio * (1 - s.era_config.risk_penalty)
        else s.era_config.risk_reward_ratio) * s.mobility_multiplier) := by
  refine ⟨?_, ?_, ?_, ?_⟩
  · intro year0 years h0 hall
    exact (china_fold_pre years (china_init year0)
      (china_init_pre year0 h0).1 (china_init_pre year0 h0).2 hall).1
  · intro s y hm hwe hy hne
    unfold china_update
    dsimp only
    rw [if_pos hne]
    rcases hy with hy | hy <;> rcases hwe with hw | hw <;>
      simp [check_window_status, hy, hw, hm]
  · intro s y h
    unfold china_update
    dsimp only
    split_ifs with hne
    · have hs := check_window_status_missed_stable
        { s with current_era := get_era_for_year y
                 era_config := get_era_config (get_era_for_year y) }
        (by simpa using h)
      refine ⟨hs.1, ?_⟩
      rw [hs.2]
    · exact ⟨h, rfl⟩
  · intro s h
    constructor
    · simp [apply_country_modifiers, h]
    · simp [apply_country_modifiers, h]

/-- A China-layer state that has recorded the URBAN_BOOM window and not
yet missed it. -/
def c7_open_state : ChinaModelState :=
  { current_era := ChinaEra.URBAN_BOOM
    era_config := get_era_config ChinaEra.URBAN_BOOM
    window_open := true
    window_missed := false
    window_era := some ChinaEra.URBAN_BOOM
    mobility_multiplier := 1 }

/-- A China-layer state whose window has been missed. -/
def c7_missed_state : ChinaModelState :=
  { current_era := ChinaEra.STRUCTURE_SOLIDIFY
    era_config := get_era_config ChinaEra.STRUCTURE_SOLIDIFY
    window_open := true
    window_missed := true
    window_era := some ChinaEra.URBAN_BOOM
    mobility_multiplier := 3/10 }

/-- Witness for C7: a 1950-1952 run never sets the flag; the 2008
transition out of URBAN_BOOM sets it and scales the multiplier by 0.3;
a later update leaves flag and multiplier alone; and the modifiers for
move and risk are multiplied by the multiplier. -/
theorem claim7_witness :
    ((1950 : ℤ) < 1978) ∧ (∀ y ∈ [(1951 : ℤ), 1952], y < 1978) ∧
    (china_run 1950 [1951, 1952]).window_missed = false ∧
    (c7_open_state.window_missed = false) ∧
    (c7_open_state.window_era = some ChinaEra.URBAN_BOOM) ∧
    (get_era_for_year 2008 = ChinaEra.STRUCTURE_SOLIDIFY) ∧
    (get_era_for_year 2008 ≠ c7_open_state.current_era) ∧
    ((china_update c7_open_state 2008).window_missed = true ∧
      (china_update c7_open_state 2008).mobility_multiplier =
        c7_open_state.mobility_multiplier * (3/10)) ∧
    (c7_missed_state.window_missed = true) ∧
    ((china_update c7_missed_state 2020).window_missed = true ∧
      (china_update c7_missed_state 2020).mobility_multiplier =
        c7_missed_state.mobility_multiplier) ∧
    (apply_country_modifiers c7_missed_state "move" =
        c7_missed_state.mobility_multiplier ∧
      apply_country_modifiers c7_missed_state "risk" =
        (if c7_missed_state.current_era = ChinaEra.NEW_UNCERTAINTY then
          c7_missed_state.era_config.risk_reward_ratio *
            (1 - c7_missed_state.era_config.risk_penalty)
        else c7_missed_state.era_config.risk_reward_ratio) *
          c7_missed_state.mobility_multiplier) :=
  ⟨by norm_num, by decide, claim7_window_mechanism.1 1950 [1951, 1952]
      (by norm_num) (by decide),
   rfl, rfl, by decide, by decide,
   claim7_window_mechanism.2.1 c7_open_state 2008 rfl (Or.inr rfl)
     (Or.inl (by decide)) (by decide),
   rfl,
   claim7_window_mechanism.2.2.1 c7_missed_state 2020 rfl,
   claim7_window_mechanism.2.2.2 c7_missed_state rfl⟩

/-- C4: the person score equals birth family class weighted by
(0.2 + 0.3*inequality) plus the merit term (0.3*education +
0.4*skill_depth + 0.2*social_capital + 0.1*log-scaled wealth) weighted by
the complement; when social mobility exceeds 0.5 the result is raised via
max (never lowered) to the mobility-scaled merit-only score; and the
returned score always lies in [0,1]. -/
theorem claim4_person_score (w : BaseWorldState)
    (education skill_depth social_capital wealth birth_family_class : ℝ)
    (hedu : 0 ≤ education ∧ education ≤ 1)
    (hsd : 0 ≤ skill_depth ∧ skill_depth ≤ 1)
    (hsc : 0 ≤ social_capital ∧ social_capital ≤ 1)
    (hw : 0 ≤ wealth)
    (hfc : 0 ≤ birth_family_class ∧ birth_family_class ≤ 1)
    (hiq : 0 ≤ w.inequality ∧ w.inequality ≤ 1) :
    (0 ≤ w.calculate_person_score education skill_depth social_capital
        wealth birth_family_class ∧
      w.calculate_person_score education skill_depth social_capital wealth
        birth_family_class ≤ 1) ∧
    (1/2 < (w.social_mobility : ℝ) →
      w.calculate_person_score education skill_depth social_capital wealth
          birth_family_class =
        min 1 (max 0 (max
          (birth_family_class * (1/5 + 3/10 * (w.inequality : ℝ)) +
            (3/10 * education + 2/5 * skill_depth + 1/5 * social_capital +
              1/10 * normalized_wealth wealth) *
              (1 - (1/5 + 3/10 * (w.inequality : ℝ))))
          ((3/10 * education + 2/5 * skill_depth + 1/5 * social_capital) *
            (w.social_mobility : ℝ)))) ∧
      min 1 (max 0
          (birth_family_class * (1/5 + 3/10 * (w.inequality : ℝ)) +
            (3/10 * education + 2/5 * skill_depth + 1/5 * social_capital +
              1/10 * normalized_wealth wealth) *
              (1 - (1/5 + 3/10 * (w.inequality : ℝ))))) ≤
        w.calculate_person_score education skill_depth social_capital
          wealth birth_family_class) ∧
    ((w.social_mobility : ℝ) ≤ 1/2 →
      w.calculate_person_score education skill_depth social_capital wealth
          birth_family_class =
        min 1 (max 0
          (birth_family_class * (1/5 + 3/10 * (w.inequality : ℝ)) +
            (3/10 * education + 2/5 * skill_depth + 1/5 * social_capital +
              1/10 * normalized_wealth wealth) *
              (1 - (1/5 + 3/10 * (w.inequality : ℝ)))))) := by
  refine ⟨⟨?_, ?_⟩, fun h => ⟨?_, ?_⟩, fun h => ?_⟩
  · simp only [BaseWorldState.calculate_person_score]
    exact le_min zero_le_one (le_max_left 0 _)
  · simp only [BaseWorldState.calculate_person_score]
    exact min_le_left _ _
  · simp only [BaseWorldState.calculate_person_score]
    rw [if_pos h]
    ring_nf
  · simp only [BaseWorldState.calculate_person_score]
    rw [if_pos h]
    refine le_trans (le_of_eq ?_)
      (min_le_min (le_refl 1) (max_le_max (le_refl 0) (le_max_left _ _)))
    ring_nf
  · simp only [BaseWorldState.calculate_person_score]
    rw [if_neg (not_lt.mpr h)]
    ring_nf

/-- A base-world state with social mobility 0.6 (above the override
threshold) for the C4 witness. -/
def c4_world : BaseWorldState :=
  { year := 2000, economic_cycle := 0, tech_level := 1/2
    inequality := 1/2, social_mobility := 3/5 }

/-- Witness for C4 at inequality 0.5, mobility 0.6, education 0.5, skill
depth 0.5, social capital 0.5, wealth 0, birth family class 0.5. -/
theorem claim4_witness :
    ((0:ℝ) ≤ 1/2 ∧ (1/2:ℝ) ≤ 1) ∧ ((0:ℝ) ≤ 0) ∧
    (0 ≤ c4_world.inequality ∧ c4_world.inequality ≤ 1) ∧
    ((1:ℝ)/2 < (c4_world.social_mobility : ℝ)) ∧
    (0 ≤ c4_world.calculate_person_score (1/2) (1/2) (1/2) 0 (1/2) ∧
      c4_world.calculate_person_score (1/2) (1/2) (1/2) 0 (1/2) ≤ 1) ∧
    (c4_world.calculate_person_score (1/2) (1/2) (1/2) 0 (1/2) =
      min 1 (max 0 (max
        ((1/2) * (1/5 + 3/10 * (c4_world.inequality : ℝ)) +
          (3/10 * (1/2) + 2/5 * (1/2) + 1/5 * (1/2) +
            1/10 * normalized_wealth 0) *
            (1 - (1/5 + 3/10 * (c4_world.inequality : ℝ))))
        ((3/10 * (1/2) + 2/5 * (1/2) + 1/5 * (1/2)) *
          (c4_world.social_mobility : ℝ)))) ∧
     min 1 (max 0
        ((1/2) * (1/5 + 3/10 * (c4_world.inequality : ℝ)) +
          (3/10 * (1/2) + 2/5 * (1/2) + 1/5 * (1/2) +
            1/10 * normalized_wealth 0) *
            (1 - (1/5 + 3/10 * (c4_world.inequality : ℝ))))) ≤
      c4_world.calculate_person_score (1/2) (1/2) (1/2) 0 (1/2)) :=
  ⟨by norm_num, by norm_num,
   by norm_num [c4_world],
   by norm_num [c4_world],
   (claim4_person_score c4_world (1/2) (1/2) (1/2) 0 (1/2)
      (by norm_num) (by norm_num) (by norm_num) (by norm_num) (by norm_num)
      (by norm_num [c4_world])).1,
   (claim4_person_score c4_world (1/2) (1/2) (1/2) 0 (1/2)
      (by norm_num) (by norm_num) (by norm_num) (by norm_num) (by norm_num)
      (by norm_num [c4_world])).2.1 (by norm_num [c4_world])⟩

end AnotherWorld
